import Mathlib

/-!
Shallow embedding of the space-race analysis pipeline
(`space_race_project.py`): the mission-record data model, the
cleaning/normalisation step, the aggregations, the insight summary and
the export stage, together with theorems checking the specified
properties.
-/

set_option maxHeartbeats 1000000

namespace SpaceRace

/-- A raw mission record as loaded from the CSV, after the column
rename (`Organisation` → `agency`, `Location` → `location_name`,
`Date` → `date`, `Detail` → `rocket`, `Rocket_Status` →
`rocket_status`, `Price` → `price`, `Mission_Status` → `status`).
All fields are raw strings at this stage. -/
structure RawRow where
  agency : String
  location_name : String
  date : String
  rocket : String
  rocket_status : String
  price : String
  status : String
deriving DecidableEq

/-- The result of a successful `pd.to_datetime` parse: the calendar
components the script extracts from the parsed timestamp
(`dt.year`, `dt.month`, `dt.month_name()`, `dt.day_name()`). -/
structure PDate where
  year : Nat
  month : Nat
  month_name : String
  day_name : String
deriving DecidableEq

/-- `df["country_full"] = df["location_name"].str.split(",").str[-1].str.strip()`:
last comma-separated token of the location, stripped. -/
def extractCountryToken (location_name : String) : String :=
  ((location_name.splitOn ",").getLastD "").trim

/-- `df["rocket_family"] = df["rocket"].str.split("|").str[0].str.strip()`:
first `|`-separated token of the rocket detail, stripped. -/
def extractRocketFamily (rocket : String) : String :=
  ((rocket.splitOn "|").headD "").trim

/-- `success_keywords = ["Success", "Partial Failure"]`. -/
def success_keywords : List String := ["Success", "Partial Failure"]

/-- The fixed `country_mapping` lookup table of the script. -/
def country_mapping : List (String × String) :=
  [("USA", "United States"),
   ("China", "China"),
   ("Russia", "Russia"),
   ("Kazakhstan", "Kazakhstan"),
   ("French Guiana", "France"),
   ("India", "India"),
   ("Japan", "Japan"),
   ("New Zealand", "New Zealand")]

/-- `df["country_full"].map(country_mapping).fillna(df["country_full"])`:
mapped value when the token is a key of `country_mapping`, otherwise
the token itself. -/
def canonCountry (s : String) : String :=
  (country_mapping.lookup s).getD s

/-- A retained (cleaned) mission record with every derived column the
script adds: `country_full`, `rocket_family`, the temporal features,
and the `success` flag. -/
structure CleanRow where
  agency : String
  location_name : String
  date : PDate
  rocket : String
  rocket_status : String
  price : String
  status : String
  country_full : String
  rocket_family : String
  year : Nat
  month : Nat
  month_name : String
  decade : Nat
  day_of_week : String
  success : Bool
deriving DecidableEq

/-- Per-row normalisation applied to a raw row whose date parsed to
`d`: the string-split country/rocket-family derivations, the temporal
features (`year`, `month`, `month_name`, `decade = (year // 10) * 10`,
`day_of_week`), `success = status.isin(success_keywords)`, and the
country canonicalisation. -/
def processRow (r : RawRow) (d : PDate) : CleanRow :=
  { agency := r.agency
    location_name := r.location_name
    date := d
    rocket := r.rocket
    rocket_status := r.rocket_status
    price := r.price
    status := r.status
    country_full := canonCountry (extractCountryToken r.location_name)
    rocket_family := extractRocketFamily r.rocket
    year := d.year
    month := d.month
    month_name := d.month_name
    decade := d.year / 10 * 10
    day_of_week := d.day_name
    success := success_keywords.contains r.status }

/-- The cleaning step of the pipeline:
`df["date"] = pd.to_datetime(df["date"], errors="coerce")` followed by
`df = df.dropna(subset=["date"])` and the per-row derivations.  The
date parser (`pd.to_datetime` on one cell, `none` modelling `NaT`) is
passed in as `parse`. -/
def cleanTable (parse : String → Option PDate) (rows : List RawRow) :
    List CleanRow :=
  rows.filterMap (fun r => (parse r.date).map (processRow r))

/-- A sample parser and a sample raw row, used as concrete witnesses. -/
def parse0 : String → Option PDate := fun s =>
  if s = "Fri Oct 04, 1957 19:28 UTC" then
    some { year := 1957, month := 10, month_name := "October",
           day_name := "Friday" }
  else none

def row0 : RawRow :=
  { agency := "RVSN USSR"
    location_name := "Site 1/5, Baikonur Cosmodrome, Kazakhstan"
    date := "Fri Oct 04, 1957 19:28 UTC"
    rocket := "Sputnik 8K71PS | Sputnik-1"
    rocket_status := "StatusRetired"
    price := ""
    status := "Success" }

def rowBadDate : RawRow :=
  { agency := "NASA"
    location_name := "Kennedy Space Center, Florida, USA"
    date := "not a date"
    rocket := "Saturn V | Apollo 11"
    rocket_status := "StatusRetired"
    price := ""
    status := "Success" }

/-- Abbreviation for the clean row the pipeline produces from `row0`. -/
def cleanRow0 : CleanRow :=
  processRow row0
    { year := 1957, month := 10, month_name := "October",
      day_name := "Friday" }

/-- C1: every retained row's date parsed successfully (its `date`
field is the parse result), and the number of retained rows is exactly
the number of input rows whose date parses — rows with unparsable
dates are dropped and no other row is removed. -/
theorem cleanTable_drops_exactly_unparsable
    (parse : String → Option PDate) (rows : List RawRow) :
    (cleanTable parse rows).length =
      (rows.filter (fun r => (parse r.date).isSome)).length ∧
    ∀ c ∈ cleanTable parse rows, ∃ r ∈ rows, parse r.date = some c.date := by
  constructor
  · induction rows with
    | nil => rfl
    | cons r rs ih =>
      cases h : parse r.date with
      | none =>
        simpa [cleanTable, List.filterMap_cons, List.filter_cons, h] using ih
      | some d =>
        simpa [cleanTable, List.filterMap_cons, List.filter_cons, h] using ih
  · intro c hc
    simp only [cleanTable, List.mem_filterMap] at hc
    obtain ⟨r, hr, hmap⟩ := hc
    refine ⟨r, hr, ?_⟩
    obtain ⟨d, hd, hc2⟩ := Option.map_eq_some'.mp hmap
    rw [hd, ← hc2]
    rfl

/-- Evaluation of the cleaning step on the two sample rows: the row
with the unparsable date is dropped, the other is retained. -/
theorem cleanTable_parse0_eval :
    cleanTable parse0 [row0, rowBadDate] = [cleanRow0] := rfl

/-- Witness for C1 at a concrete parser and table. -/
theorem cleanTable_drops_exactly_unparsable_witness :
    ∃ r ∈ [row0, rowBadDate], parse0 r.date = some cleanRow0.date :=
  (cleanTable_drops_exactly_unparsable parse0 [row0, rowBadDate]).2
    cleanRow0 (by rw [cleanTable_parse0_eval]; exact List.mem_cons_self _ _)

/-- C2: for every retained row, `success` is true exactly when the raw
status string is `"Success"` or `"Partial Failure"` (and false for any
other status value). -/
theorem success_iff_status (parse : String → Option PDate)
    (rows : List RawRow) :
    ∀ c ∈ cleanTable parse rows,
      (c.success = true ↔
        (c.status = "Success" ∨ c.status = "Partial Failure")) := by
  intro c hc
  simp only [cleanTable, List.mem_filterMap] at hc
  obtain ⟨r, hr, hmap⟩ := hc
  obtain ⟨d, hd, hc2⟩ := Option.map_eq_some'.mp hmap
  subst hc2
  show success_keywords.contains r.status = true ↔
    (r.status = "Success" ∨ r.status = "Partial Failure")
  simp [success_keywords, List.contains_cons]

/-- Witness for C2 at a concrete retained row. -/
theorem success_iff_status_witness :
    cleanRow0.success = true ↔
      (cleanRow0.status = "Success" ∨ cleanRow0.status = "Partial Failure") :=
  success_iff_status parse0 [row0, rowBadDate] cleanRow0
    (by rw [cleanTable_parse0_eval]; exact List.mem_cons_self _ _)

/-- C3: for every retained row, `decade = (year // 10) * 10`. -/
theorem decade_eq_year_floor (parse : String → Option PDate)
    (rows : List RawRow) :
    ∀ c ∈ cleanTable parse rows, c.decade = c.year / 10 * 10 := by
  intro c hc
  simp only [cleanTable, List.mem_filterMap] at hc
  obtain ⟨r, hr, hmap⟩ := hc
  obtain ⟨d, hd, hc2⟩ := Option.map_eq_some'.mp hmap
  subst hc2
  rfl

/-- Witness for C3 at a concrete retained row. -/
theorem decade_eq_year_floor_witness :
    cleanRow0.decade = cleanRow0.year / 10 * 10 :=
  decade_eq_year_floor parse0 [row0, rowBadDate] cleanRow0
    (by rw [cleanTable_parse0_eval]; exact List.mem_cons_self _ _)

/-- Every value produced by a successful `country_mapping` lookup is
one of the eight canonical names. -/
theorem lookup_country_mapping_cases (s v : String)
    (h : country_mapping.lookup s = some v) :
    v = "United States" ∨ v = "China" ∨ v = "Russia" ∨ v = "Kazakhstan" ∨
    v = "France" ∨ v = "India" ∨ v = "Japan" ∨ v = "New Zealand" := by
  simp only [country_mapping, List.lookup_cons, List.lookup_nil] at h
  repeat' split at h
  all_goals simp_all

/-- C4: the country canonicalisation is idempotent, and any token that
is not a key of `country_mapping` is returned unchanged. -/
theorem canonCountry_idempotent :
    (∀ s, canonCountry (canonCountry s) = canonCountry s) ∧
    (∀ s, country_mapping.lookup s = none → canonCountry s = s) := by
  constructor
  · intro s
    cases h : country_mapping.lookup s with
    | none => simp [canonCountry, h]
    | some v =>
      have hv := lookup_country_mapping_cases s v h
      have h2 : canonCountry s = v := by simp [canonCountry, h]
      rw [h2]
      rcases hv with rfl | rfl | rfl | rfl | rfl | rfl | rfl | rfl <;> rfl
  · intro s h
    simp [canonCountry, h]

/-- Witness for C4: a mapped token is a fixed point after one
application, and an unmapped token passes through unchanged. -/
theorem canonCountry_idempotent_witness :
    canonCountry (canonCountry "USA") = canonCountry "USA" ∧
    canonCountry "Iran" = "Iran" :=
  ⟨canonCountry_idempotent.1 "USA", canonCountry_idempotent.2 "Iran" rfl⟩

/-- `value_counts` over a column: each distinct value paired with its
number of occurrences. -/
def valueCounts (xs : List String) : List (String × Nat) :=
  xs.dedup.map (fun k => (k, xs.count k))

/-- The counts reported by `valueCounts` add up to the column length. -/
theorem sum_valueCounts (xs : List String) :
    ((valueCounts xs).map Prod.snd).sum = xs.length := by
  have h1 : (valueCounts xs).map Prod.snd = xs.dedup.map (fun k => xs.count k) := by
    simp [valueCounts, List.map_map, Function.comp]
  have h2 : xs.dedup.toFinset = xs.toFinset := by
    ext a
    simp [List.mem_dedup]
  rw [h1, ← List.sum_toFinset _ xs.nodup_dedup, h2]
  exact List.sum_toFinset_count_eq_length xs

/-- C5: the per-country mission counts sum to the number of retained
rows, and likewise for the per-agency counts. -/
theorem valueCounts_sum_to_total (parse : String → Option PDate)
    (rows : List RawRow) :
    ((valueCounts ((cleanTable parse rows).map
        (fun c => c.country_full))).map Prod.snd).sum =
      (cleanTable parse rows).length ∧
    ((valueCounts ((cleanTable parse rows).map
        (fun c => c.agency))).map Prod.snd).sum =
      (cleanTable parse rows).length := by
  constructor <;> rw [sum_valueCounts, List.length_map]

/-- `series.mean() * 100 if len(series) > 0 else 0` for the boolean
`success` column of a slice of the table. -/
def successMeanPct (rows : List CleanRow) : ℚ :=
  if 0 < rows.length then
    (((rows.filter (fun c => c.success)).length : ℚ) / (rows.length : ℚ)) * 100
  else 0

/-- `df["decade"].max()` (0 on an empty table). -/
def maxDecade (t : List CleanRow) : Nat :=
  (t.map (fun c => c.decade)).foldl max 0

/-- `df["decade"].min()` (0 on an empty table). -/
def minDecade (t : List CleanRow) : Nat :=
  match t.map (fun c => c.decade) with
  | [] => 0
  | d :: ds => ds.foldl min d

/-- `recent_success = recent_decade["success"].mean() * 100 if ... else 0`
where `recent_decade = df[df["decade"] == df["decade"].max()]`. -/
def recent_success (t : List CleanRow) : ℚ :=
  successMeanPct (t.filter (fun c => c.decade = maxDecade t))

/-- `old_success = old_decade["success"].mean() * 100 if ... else 0`
where `old_decade = df[df["decade"] == df["decade"].min()]`. -/
def old_success (t : List CleanRow) : ℚ :=
  successMeanPct (t.filter (fun c => c.decade = minDecade t))

/-- `trend_text = "IMPROVED" if recent_success > old_success else "DECLINED"`. -/
def trend_text (t : List CleanRow) : String :=
  if recent_success t > old_success t then "IMPROVED" else "DECLINED"

/-- C10: the summary reports `"IMPROVED"` exactly when the latest
decade's success rate strictly exceeds the earliest decade's; when the
two rates are equal it reports `"DECLINED"`. -/
theorem trend_text_spec (t : List CleanRow) :
    (trend_text t = "IMPROVED" ↔ old_success t < recent_success t) ∧
    (recent_success t = old_success t → trend_text t = "DECLINED") := by
  constructor
  · by_cases h : old_success t < recent_success t
    · simp [trend_text, h]
    · simp [trend_text, h]
  · intro h
    simp [trend_text, h]

/-- Witness for C10: a one-row table has equal earliest and latest
decade rates, and the summary reports `"DECLINED"`. -/
theorem trend_text_spec_witness : trend_text [cleanRow0] = "DECLINED" :=
  (trend_text_spec [cleanRow0]).2 (by rfl)

/-- The two load failures the script distinguishes:
`FileNotFoundError` and any other exception raised by `pd.read_csv`. -/
inductive LoadError
  | fileNotFound
  | parseFailure (msg : String)
deriving DecidableEq

/-- The message the script prints before `exit()` for each load failure. -/
def loadErrorMsg : LoadError → String
  | .fileNotFound => "ERROR: mission_launches.csv not found!"
  | .parseFailure m => "ERROR loading CSV: " ++ m

/-- The files written during the export step, in program order. -/
inductive Artifact
  | processedCsv
  | countryCsv
  | orgCsv
  | yearlyCsv
  | rocketCsv
  | summaryTxt
  | decadeCsv
  | excelWorkbook
deriving DecidableEq, Inhabited, Fintype

/-- Outcome of one write attempt during the export step: success, an
`ImportError` (a missing optional library), or any other exception. -/
inductive WriteResult
  | ok
  | importError
  | otherError (msg : String)
deriving DecidableEq

/-- The order in which the export step writes its files. -/
def exportOrder : List Artifact :=
  [.processedCsv, .countryCsv, .orgCsv, .yearlyCsv, .rocketCsv,
   .summaryTxt, .decadeCsv, .excelWorkbook]

/-- The export `try` block: writes the pending artifacts in order.
A successful write is recorded and the step continues; an
`ImportError` raised by the Excel write is caught by the inner
`try/except ImportError` (the artifact is skipped, the step
continues); any other exception — and an `ImportError` outside the
inner `try` — propagates to the outer `except Exception`, which
reports it and ends the export step. Returns the artifacts written
and the reported error, if any. -/
def runExportsFrom (env : Artifact → WriteResult) :
    List Artifact → List Artifact × Option String
  | [] => ([], none)
  | a :: rest =>
    match env a, a with
    | .ok, _ =>
      let res := runExportsFrom env rest
      (a :: res.1, res.2)
    | .importError, .excelWorkbook => runExportsFrom env rest
    | .importError, _ => ([], some "ImportError")
    | .otherError m, _ => ([], some m)

/-- The whole export step of the script. -/
def runExports (env : Artifact → WriteResult) :
    List Artifact × Option String :=
  runExportsFrom env exportOrder

/-- The observable outcome of a run of the script: either it
terminated at the load step (printing a message, writing nothing), or
it reached the export step with a cleaned table. -/
inductive ProgramResult
  | loadFailure (msg : String)
  | finished (table : List CleanRow) (written : List Artifact)
      (exportError : Option String)

/-- The artifacts a run wrote to disk. -/
def writtenArtifacts : ProgramResult → List Artifact
  | .loadFailure _ => []
  | .finished _ ws _ => ws

/-- The script end to end: `pd.read_csv` (modelled by an `Except`
input), then — only on success — the cleaning step and the export
step.  There is no other failure exit before the export stage. -/
def runProgram (input : Except LoadError (List RawRow))
    (parse : String → Option PDate) (env : Artifact → WriteResult) :
    ProgramResult :=
  match input with
  | .error e => .loadFailure (loadErrorMsg e)
  | .ok rows =>
    let res := runExports env
    .finished (cleanTable parse rows) res.1 res.2

/-- C7: a missing or unparsable input file makes the program report
the corresponding message and terminate with no artifacts written, and
this load failure is the only failure point before the export stage:
on any successful load the program always reaches the export step with
the cleaned table. -/
theorem load_failure_terminates (parse : String → Option PDate)
    (env : Artifact → WriteResult) :
    (∀ e, runProgram (.error e) parse env = .loadFailure (loadErrorMsg e) ∧
      writtenArtifacts (runProgram (.error e) parse env) = []) ∧
    (∀ rows, runProgram (.ok rows) parse env =
      .finished (cleanTable parse rows) (runExports env).1
        (runExports env).2) :=
  ⟨fun _ => ⟨rfl, rfl⟩, fun _ => rfl⟩

/-- If the first `k` writes succeed and the `k`-th raises an exception
other than `ImportError`, the export step writes exactly the first `k`
artifacts and reports the exception. -/
theorem runExportsFrom_abort (l : List Artifact)
    (env : Artifact → WriteResult) (k : Nat) (m : String)
    (hk : k < l.length)
    (hbefore : ∀ j, j < k → env (l.getD j default) = .ok)
    (hfail : env (l.getD k default) = .otherError m) :
    runExportsFrom env l = (l.take k, some m) := by
  induction l generalizing k with
  | nil => simp at hk
  | cons a rest ih =>
    cases k with
    | zero =>
      simp only [List.getD_cons_zero] at hfail
      simp [runExportsFrom, hfail]
    | succ k2 =>
      have ha : env a = .ok := by
        simpa using hbefore 0 (Nat.succ_pos k2)
      have hres := ih k2 (by simpa using hk)
        (fun j hj => by simpa using hbefore (j + 1) (Nat.succ_lt_succ hj))
        (by simpa using hfail)
      simp [runExportsFrom, ha, hres]

/-- C8: during the export step, a missing spreadsheet library
(`ImportError` raised by the Excel write) is non-fatal — every other
artifact is still written and no error is reported — while any other
exception at any write aborts the export step: only the artifacts
already written are produced and the exception is reported. -/
theorem export_error_handling (env : Artifact → WriteResult) :
    (env .excelWorkbook = .importError →
      (∀ a, a ≠ Artifact.excelWorkbook → env a = .ok) →
      runExports env =
        (exportOrder.filter (fun a => a ≠ Artifact.excelWorkbook), none)) ∧
    (∀ k m, k < exportOrder.length →
      (∀ j, j < k → env (exportOrder.getD j default) = .ok) →
      env (exportOrder.getD k default) = .otherError m →
      runExports env = (exportOrder.take k, some m)) := by
  constructor
  · intro hx ha
    have h0 := ha .processedCsv (by decide)
    have h1 := ha .countryCsv (by decide)
    have h2 := ha .orgCsv (by decide)
    have h3 := ha .yearlyCsv (by decide)
    have h4 := ha .rocketCsv (by decide)
    have h5 := ha .summaryTxt (by decide)
    have h6 := ha .decadeCsv (by decide)
    simp [runExports, exportOrder, runExportsFrom,
      h0, h1, h2, h3, h4, h5, h6, hx]
  · intro k m hk hbefore hfail
    exact runExportsFrom_abort exportOrder env k m hk hbefore hfail

/-- Export environment where only the spreadsheet library is missing. -/
def envSkipExcel : Artifact → WriteResult :=
  fun a => if a = Artifact.excelWorkbook then .importError else .ok

/-- Export environment where the fourth write raises an `OSError`. -/
def envDiskFull : Artifact → WriteResult :=
  fun a => if a = Artifact.yearlyCsv then .otherError "disk full" else .ok

/-- Witness for C8 at two concrete export environments. -/
theorem export_error_handling_witness :
    runExports envSkipExcel =
      (exportOrder.filter (fun a => a ≠ Artifact.excelWorkbook), none) ∧
    runExports envDiskFull = (exportOrder.take 3, some "disk full") :=
  ⟨(export_error_handling envSkipExcel).1 (by decide) (by decide),
   (export_error_handling envDiskFull).2 3 "disk full" (by decide)
     (by decide) (by decide)⟩

/-- The keys of `df.groupby("year")`, in ascending order. -/
def yearsSorted (t : List CleanRow) : List Nat :=
  List.insertionSort (· ≤ ·) ((t.map (fun c => c.year)).dedup)

/-- `success_by_year["rate"]`: the per-year success rate series, year
keys ascending. -/
def success_rate_by_year (t : List CleanRow) : List ℚ :=
  (yearsSorted t).map (fun y => successMeanPct (t.filter (fun c => c.year = y)))

/-- `series.rolling(window=5, center=True).mean()`: at position `i`
the window is positions `max(i-2,0) .. min(i+2,n-1)`; the mean is
defined only when that window holds five observations, otherwise the
entry is null. -/
def rollingMean5 (xs : List ℚ) : List (Option ℚ) :=
  (List.range xs.length).map (fun i =>
    let w := (xs.drop (i - 2)).take (i + 3 - (i - 2))
    if w.length = 5 then some (w.sum / 5) else none)

/-- `rolling_success = success_by_year["rate"].rolling(window=5, center=True).mean()`. -/
def rolling_success (t : List CleanRow) : List (Option ℚ) :=
  rollingMean5 (success_rate_by_year t)

/-- The first five entries of a list of length at least five. -/
theorem take_five_of_length : ∀ (l : List ℚ), 5 ≤ l.length →
    l.take 5 = [l.getD 0 0, l.getD 1 0, l.getD 2 0, l.getD 3 0, l.getD 4 0]
  | [], h => by simp at h
  | [a], h => by simp at h
  | [a, b], h => by simp at h
  | [a, b, c], h => by simp at h
  | [a, b, c, d], h => by simp at h
  | a :: b :: c :: d :: e :: rest, _ => rfl

/-- C6: the rolling trend has the same length as the input series; at
every position whose full five-wide window lies inside the series it
is the arithmetic mean of the five window values, and at the edge
positions where the window is incomplete it is null. -/
theorem rollingMean5_window (xs : List ℚ) (i : Nat) :
    (2 ≤ i → i + 2 < xs.length →
      (rollingMean5 xs)[i]? = some (some
        ((xs.getD (i - 2) 0 + xs.getD (i - 1) 0 + xs.getD i 0 +
          xs.getD (i + 1) 0 + xs.getD (i + 2) 0) / 5))) ∧
    (i < xs.length → (i < 2 ∨ xs.length ≤ i + 2) →
      (rollingMean5 xs)[i]? = some none) := by
  constructor
  · intro h2 hn
    have hi : i < xs.length := by omega
    have e1 : i + 3 - (i - 2) = 5 := by omega
    have hlen : ((xs.drop (i - 2)).take (i + 3 - (i - 2))).length = 5 := by
      simp only [List.length_take, List.length_drop]
      omega
    have hlen5 : 5 ≤ (xs.drop (i - 2)).length := by
      simp only [List.length_drop]
      omega
    have hw : (xs.drop (i - 2)).take (i + 3 - (i - 2)) =
        [xs.getD (i - 2) 0, xs.getD (i - 1) 0, xs.getD i 0,
         xs.getD (i + 1) 0, xs.getD (i + 2) 0] := by
      rw [e1, take_five_of_length _ hlen5]
      simp only [List.getD_eq_getElem?_getD, List.getElem?_drop]
      have g0 : i - 2 + 0 = i - 2 := by omega
      have g1 : i - 2 + 1 = i - 1 := by omega
      have g2 : i - 2 + 2 = i := by omega
      have g3 : i - 2 + 3 = i + 1 := by omega
      have g4 : i - 2 + 4 = i + 2 := by omega
      rw [g0, g1, g2, g3, g4]
    simp only [rollingMean5, List.getElem?_map, List.getElem?_range hi,
      Option.map_some']
    rw [hw] at hlen ⊢
    simp only [hlen, if_pos]
    simp [List.sum_cons, List.sum_nil]
    ring_nf
  · intro hi hedge
    simp only [rollingMean5, List.getElem?_map, List.getElem?_range hi,
      Option.map_some']
    simp only [List.length_take, List.length_drop]
    have hcond : ¬ (i + 3 - (i - 2)) ⊓ (xs.length - (i - 2)) = 5 := by
      rw [Nat.min_def]
      split <;> omega
    rw [if_neg hcond]

/-- A concrete six-entry rate series for the C6 witness. -/
def sampleRates : List ℚ := [100, 80, 90, 100, 60, 70]

/-- Witness for C6: on a six-entry series, position 2 is the mean of
entries 0–4 and position 0 is null. -/
theorem rollingMean5_window_witness :
    (rollingMean5 sampleRates)[2]? = some (some
      ((sampleRates.getD 0 0 + sampleRates.getD 1 0 + sampleRates.getD 2 0 +
        sampleRates.getD 3 0 + sampleRates.getD 4 0) / 5)) ∧
    (rollingMean5 sampleRates)[0]? = some none :=
  ⟨(rollingMean5_window sampleRates 2).1 (by decide) (by decide),
   (rollingMean5_window sampleRates 0).2 (by decide) (Or.inl (by decide))⟩

/-- The decimal digits of `n`, least significant first. -/
def natToRevDigits (n : Nat) : List Char :=
  if h : n < 10 then [Nat.digitChar n]
  else Nat.digitChar (n % 10) :: natToRevDigits (n / 10)
decreasing_by exact Nat.div_lt_self (by omega) (by omega)

/-- The decimal cell `df.to_csv` writes for an integer column value. -/
def natToDecimal (n : Nat) : String :=
  String.mk (natToRevDigits n).reverse

/-- The cell `df.to_csv` writes for a boolean column value. -/
def boolToCsv (b : Bool) : String := if b then "True" else "False"

/-- The cell written for the parsed date (its textual formatting is
never re-read by the round-trip claim). -/
def dateToCsv (d : PDate) : String :=
  natToDecimal d.year ++ "-" ++ natToDecimal d.month

/-- One step of integer parsing during reload. -/
def pnStep (acc : Option Nat) (c : Char) : Option Nat :=
  match acc with
  | none => none
  | some n => if c.isDigit then some (n * 10 + (c.toNat - 48)) else none

/-- Integer cell parsing as `pd.read_csv` re-infers it on reload. -/
def parseCsvNat (s : String) : Option Nat :=
  if s.data.isEmpty then none else s.data.foldl pnStep (some 0)

/-- Boolean cell parsing as `pd.read_csv` re-infers it on reload. -/
def parseCsvBool (s : String) : Option Bool :=
  if s = "True" then some true
  else if s = "False" then some false
  else none

/-- The row `df.to_csv(..., index=False)` writes for one retained
record, in the column order of the processed table. -/
def exportRowCsv (c : CleanRow) : List String :=
  [c.agency, c.location_name, dateToCsv c.date, c.rocket, c.rocket_status,
   c.price, c.status, c.country_full, c.rocket_family,
   natToDecimal c.year, natToDecimal c.month, c.month_name,
   natToDecimal c.decade, c.day_of_week, boolToCsv c.success]

/-- `df.to_csv("exports/processed_mission_data.csv", index=False)`. -/
def writeCsv (t : List CleanRow) : List (List String) :=
  t.map exportRowCsv

/-- Reloading one exported row: the `year`, `decade` and `success`
cells re-parsed at their column positions. -/
def reloadDerived (row : List String) : Option (Nat × Nat × Bool) :=
  match parseCsvNat (row.getD 9 ""), parseCsvNat (row.getD 12 ""),
      parseCsvBool (row.getD 14 "") with
  | some y, some dec, some s => some (y, dec, s)
  | _, _, _ => none

/-- Reloading the whole exported file. -/
def reloadCsv : List (List String) → Option (List (Nat × Nat × Bool))
  | [] => some []
  | r :: rs =>
    match reloadDerived r, reloadCsv rs with
    | some x, some xs => some (x :: xs)
    | _, _ => none

/-- A digit character is recognised as a digit and decodes to its value. -/
theorem digitChar_decode (d : Nat) (h : d < 10) :
    (Nat.digitChar d).isDigit = true ∧ (Nat.digitChar d).toNat - 48 = d := by
  interval_cases d <;> exact ⟨rfl, rfl⟩

/-- Folding the parser over the digits of `n` appends `n` to the
accumulated value. -/
theorem foldl_pnStep_revDigits (n : Nat) : ∀ a : Nat,
    ((natToRevDigits n).reverse).foldl pnStep (some a) =
      some (a * 10 ^ (natToRevDigits n).length + n) := by
  induction n using Nat.strong_induction_on with
  | _ n ih =>
    intro a
    by_cases h : n < 10
    · have e : natToRevDigits n = [Nat.digitChar n] := by
        rw [natToRevDigits]
        simp [h]
      obtain ⟨hdig, hval⟩ := digitChar_decode n h
      rw [e]
      show pnStep (some a) (Nat.digitChar n) = some (a * 10 ^ 1 + n)
      simp [pnStep, hdig, hval]
    · have e : natToRevDigits n =
          Nat.digitChar (n % 10) :: natToRevDigits (n / 10) := by
        rw [natToRevDigits]
        simp [h]
      have hmod : n % 10 < 10 := Nat.mod_lt _ (by omega)
      obtain ⟨hdig, hval⟩ := digitChar_decode (n % 10) hmod
      have hrec := ih (n / 10) (Nat.div_lt_self (by omega) (by omega)) a
      rw [e, List.reverse_cons, List.foldl_append, hrec]
      simp only [List.foldl_cons, List.foldl_nil]
      simp only [pnStep, hdig, if_pos, hval, List.length_cons]
      congr 1
      rw [pow_succ, ← Nat.mul_assoc]
      generalize a * 10 ^ (natToRevDigits (n / 10)).length = x
      omega

/-- Round trip of the integer cells. -/
theorem parseCsvNat_natToDecimal (n : Nat) :
    parseCsvNat (natToDecimal n) = some n := by
  have hcons : ∃ c cs, natToRevDigits n = c :: cs := by
    rw [natToRevDigits]
    split
    · exact ⟨_, _, rfl⟩
    · exact ⟨_, _, rfl⟩
  obtain ⟨c, cs, hc⟩ := hcons
  have hne : ((natToRevDigits n).reverse).isEmpty = false := by
    rw [hc, List.reverse_cons]
    simp
  have h1 := foldl_pnStep_revDigits n 0
  show (if ((natToRevDigits n).reverse).isEmpty then none
    else ((natToRevDigits n).reverse).foldl pnStep (some 0)) = some n
  rw [hne, h1]
  simp

/-- Round trip of the boolean cells. -/
theorem parseCsvBool_boolToCsv (b : Bool) :
    parseCsvBool (boolToCsv b) = some b := by
  cases b <;> rfl

/-- Reloading one written row recovers its derived column values. -/
theorem reloadDerived_exportRowCsv (c : CleanRow) :
    reloadDerived (exportRowCsv c) = some (c.year, c.decade, c.success) := by
  have h9 : (exportRowCsv c).getD 9 "" = natToDecimal c.year := rfl
  have h12 : (exportRowCsv c).getD 12 "" = natToDecimal c.decade := rfl
  have h14 : (exportRowCsv c).getD 14 "" = boolToCsv c.success := rfl
  unfold reloadDerived
  rw [h9, h12, h14, parseCsvNat_natToDecimal, parseCsvNat_natToDecimal,
    parseCsvBool_boolToCsv]

/-- C9: exporting the processed table and reloading the flat file
keeps the row count and recovers, for every row, the derived `year`,
`decade` and `success` values. -/
theorem csv_round_trip (t : List CleanRow) :
    reloadCsv (writeCsv t) =
      some (t.map (fun c => (c.year, c.decade, c.success))) ∧
    (writeCsv t).length = t.length := by
  constructor
  · induction t with
    | nil => rfl
    | cons c cs ih =>
      show reloadCsv (exportRowCsv c :: writeCsv cs) = _
      unfold reloadCsv
      rw [reloadDerived_exportRowCsv, ih]
      rfl
  · simp [writeCsv]

end SpaceRace
